import Mathlib

/-
Verification development for the fact-checking pipeline:
a shallow embedding of the claim-verification and report-generation code
(`claim_verifier.py`, `report_generator.py`, `search_providers.py`)
together with theorems about it.

Modelling conventions:
* Python `float` confidence values are modelled as `ℚ`; the numeric
  literals (0.7, 0.3, ...) are exact rationals.
* side effects (the web-search provider, the language model, the clock,
  exceptions raised during one claim's verification) are passed in
  explicitly as function parameters / `Except` outcomes.
* Python `str.split()` is modelled as splitting on whitespace characters
  and dropping empty pieces.
-/

namespace FactCheck

/-- A claim handed to the verifier (the per-claim fields read by
`claim_verifier.py`: `text`, `claim_type`, `context`, `page_number`). -/
structure Claim where
  text : String
  claim_type : String
  context : String
  page_number : Int
  deriving DecidableEq, Repr

/-- `SearchResult` dataclass from `search_providers.py`. -/
structure SearchResult where
  title : String
  url : String
  snippet : String
  source : String := "Tavily"
  relevance_score : Option ℚ := none
  published_date : Option String := none
  deriving DecidableEq, Repr

/-- One evidence entry of the adjudicator's JSON contract
(`{source, snippet, relevance}`). -/
structure Evidence where
  source : String
  snippet : String
  relevance : String
  deriving DecidableEq, Repr

/-- The dictionary produced by `verify_with_llm` (either parsed from the
model's JSON or one of the fallback dictionaries). -/
structure LLMResult where
  verification_status : String
  confidence_score : ℚ
  evidence : List Evidence
  analysis : String
  deriving DecidableEq, Repr

/-- `VerificationResult` dataclass from `claim_verifier.py`. -/
structure VerificationResult where
  claim_text : String
  claim_type : String
  claim_context : String
  page_number : Int
  verification_status : String
  confidence_score : ℚ
  evidence : List Evidence
  analysis : String
  search_queries_used : List String
  search_provider_used : String
  timestamp : String
  deriving DecidableEq, Repr

/-- `ReportClaim` dataclass from `report_generator.py`. -/
structure ReportClaim where
  claim_text : String
  claim_type : String
  context : String
  page_number : Int
  verdict : String
  confidence_score : ℚ
  explanation : String
  evidence_summary : String
  sources_count : Nat
  recommendation : String
  deriving DecidableEq, Repr

/-- One entry of the executive summary's `high_priority_issues` list. -/
structure HighPriorityIssue where
  claim : String
  verdict : String
  page : Int
  confidence : ℚ
  deriving DecidableEq, Repr

/-- The executive-summary dictionary built by
`FactCheckReporter.generate_executive_summary` in the non-empty case. -/
structure ExecSummary where
  total_claims : Nat
  verified : Nat
  inaccurate : Nat
  false_count : Nat
  accuracy_rate : ℚ
  document_quality : String
  high_priority_issues : List HighPriorityIssue
  issues_requiring_action : Nat
  timestamp : String
  deriving DecidableEq, Repr

/-- `generate_executive_summary` returns either the error dictionary
`{'error': 'No claims to report'}` (empty claim list) or a summary. -/
inductive ExecResult where
  | error (msg : String)
  | summary (s : ExecSummary)
  deriving DecidableEq, Repr

/-- Helper for `pyWords`: scan the characters, `acc` holding the current
word reversed; whitespace ends a word, runs of whitespace produce no
empty words. -/
def pySplitAux : List Char → List Char → List String
  | [], acc => if acc = [] then [] else [String.mk acc.reverse]
  | c :: cs, acc =>
    if c.isWhitespace then
      if acc = [] then pySplitAux cs []
      else String.mk acc.reverse :: pySplitAux cs []
    else pySplitAux cs (c :: acc)

/-- Python `context.split()` (no separator argument): split on runs of
whitespace, dropping empty pieces. -/
def pyWords (s : String) : List String :=
  pySplitAux s.data []

/-- `[w for w in context.split() if len(w) > 4][:5]`
(`claim_verifier.py` line 61). -/
def contextWords (context : String) : List String :=
  ((pyWords context).filter (fun w => 4 < w.length)).take 5

/-- `EnhancedClaimVerifier.generate_search_queries`
(`claim_verifier.py` lines 49–73): base query, then the context-enhanced
query when the context has words longer than 4 characters, then the
type-specific query; the list is truncated to 2 entries. -/
def generateSearchQueries (claim : Claim) : List String :=
  let cw := contextWords claim.context
  let queries := [claim.text]
  let queries := if cw ≠ [] then
      queries ++ [claim.text ++ " " ++ String.intercalate " " cw]
    else queries
  let queries :=
    if claim.claim_type = "financial" then
      queries ++ [claim.text ++ " financial report SEC filing"]
    else if claim.claim_type = "statistic" then
      queries ++ [claim.text ++ " statistics data report"]
    else if claim.claim_type = "date" then
      queries ++ [claim.text ++ " date timeline event"]
    else queries
  queries.take 2

/-- The URL-deduplication loop of `search_for_claim`
(`claim_verifier.py` lines 93–99): keep a result iff its `url` has not
been seen before; `seen` is the set of already-seen urls. -/
def dedupByUrl : List SearchResult → List String → List SearchResult
  | [], _ => []
  | r :: rest, seen =>
    if r.url ∈ seen then dedupByUrl rest seen
    else r :: dedupByUrl rest (r.url :: seen)

/-- Deduplicate by url, then `unique_results[:5]`
(`claim_verifier.py` line 101). -/
def dedupTruncate (results : List SearchResult) : List SearchResult :=
  (dedupByUrl results []).take 5

/-- The query loop of `search_for_claim` (`claim_verifier.py` lines
81–91): issue each query against the provider; when a query returns
results, accumulate them and record the query; stop early once 5 results
are accumulated.  `provider q` is the (effect-free model of the) provider
call `self.search.search(q, max_results=3)`; a failing or empty search is
a query mapped to `[]`. -/
def searchLoop (provider : String → List SearchResult) :
    List String → List SearchResult → List String →
    List SearchResult × List String
  | [], acc, used => (acc, used)
  | q :: qs, acc, used =>
    let results := provider q
    if results = [] then searchLoop provider qs acc used
    else
      let acc' := acc ++ results
      let used' := used ++ [q]
      if 5 ≤ acc'.length then (acc', used')
      else searchLoop provider qs acc' used'

/-- `EnhancedClaimVerifier.search_for_claim`
(`claim_verifier.py` lines 75–101). -/
def searchForClaim (provider : String → List SearchResult) (claim : Claim) :
    List SearchResult × List String :=
  let r := searchLoop provider (generateSearchQueries claim) [] []
  (dedupTruncate r.1, r.2)

/-- The fallback dictionary `verify_claim` uses when the search returned
no results (`claim_verifier.py` lines 187–192). -/
def noSearchResultsLLM : LLMResult :=
  { verification_status := "unverifiable"
    confidence_score := 0
    evidence := []
    analysis := "No search results found to verify this claim." }

/-- `EnhancedClaimVerifier.verify_claim` (`claim_verifier.py` lines
173–209).  `search` models `search_for_claim`, `llm` models
`verify_with_llm`, `ts` models `datetime.now().isoformat()`. -/
def verifyClaim (search : Claim → List SearchResult × List String)
    (llm : Claim → List SearchResult → LLMResult)
    (ts : String) (claim : Claim) : VerificationResult :=
  let sr := search claim
  let searchResults := sr.1
  let usedQueries := sr.2
  let provider := match searchResults with
    | [] => "None"
    | r :: _ => r.source
  let llmResult := match searchResults with
    | [] => noSearchResultsLLM
    | _ :: _ => llm claim searchResults
  { claim_text := claim.text
    claim_type := claim.claim_type
    claim_context := claim.context
    page_number := claim.page_number
    verification_status := llmResult.verification_status
    confidence_score := llmResult.confidence_score
    evidence := llmResult.evidence
    analysis := llmResult.analysis
    search_queries_used := usedQueries
    search_provider_used := provider
    timestamp := ts }

/-- `claims[:max_claims] if max_claims else claims`
(`claim_verifier.py` line 216): `None` and `0` are both falsy in Python,
so both select the whole list. -/
def truncateClaims (claims : List Claim) (maxClaims : Option Nat) :
    List Claim :=
  match maxClaims with
  | some n => if n = 0 then claims else claims.take n
  | none => claims

/-- The fallback `VerificationResult` built by `verify_all_claims` when a
single claim's verification raises (`claim_verifier.py` lines 236–248). -/
def errorFallback (claim : Claim) (msg ts : String) : VerificationResult :=
  { claim_text := claim.text
    claim_type := claim.claim_type
    claim_context := claim.context
    page_number := claim.page_number
    verification_status := "unverifiable"
    confidence_score := 0
    evidence := []
    analysis := "Error: " ++ msg
    search_queries_used := []
    search_provider_used := "None"
    timestamp := ts }

/-- The per-claim loop of `verify_all_claims` (`claim_verifier.py` lines
223–253): each claim's verification either yields a result (`.ok`) or
raises with a message (`.error`), in which case the fallback result is
appended; the loop never aborts.  `tsOf i` models the clock at the i-th
claim. -/
def verifyLoop (verify : Claim → Except String VerificationResult)
    (tsOf : Nat → String) : Nat → List Claim → List VerificationResult
  | _, [] => []
  | i, c :: cs =>
    (match verify c with
      | .ok r => r
      | .error e => errorFallback c e (tsOf i)) ::
      verifyLoop verify tsOf (i + 1) cs

/-- `EnhancedClaimVerifier.verify_all_claims` (`claim_verifier.py` lines
211–255): truncate the claims, process each one with failure isolation,
append every result to the verifier's persistent `verification_results`
list (`prior`), and return that whole list. -/
def verifyAllClaims (verify : Claim → Except String VerificationResult)
    (tsOf : Nat → String) (prior : List VerificationResult)
    (claims : List Claim) (maxClaims : Option Nat) :
    List VerificationResult :=
  prior ++ verifyLoop verify tsOf 0 (truncateClaims claims maxClaims)

/-- `FactCheckReporter._map_to_verdict` (`report_generator.py` lines
58–87). -/
def mapToVerdict (verification_status : String) (confidence : ℚ) : String :=
  if verification_status = "verified" then "verified"
  else if verification_status = "contradicted" then
    if (0.7 : ℚ) ≤ confidence then "inaccurate" else "false"
  else if verification_status = "partial" then "inaccurate"
  else if verification_status = "unverifiable" then "false"
  else "false"

/-- `FactCheckReporter._generate_recommendation`
(`report_generator.py` lines 89–96). -/
def generateRecommendation (verdict : String) : String :=
  if verdict = "verified" then "No action needed. Claim is accurate."
  else if verdict = "inaccurate" then
    "UPDATE: Review and correct this claim. Provide current data or add context."
  else if verdict = "false" then
    "REMOVE or VERIFY: This claim lacks evidence. Remove or find supporting sources."
  else "Review this claim manually."

/-- `FactCheckReporter._summarize_evidence`
(`report_generator.py` lines 98–109). -/
def summarizeEvidence (evidence_list : List Evidence) : String :=
  if evidence_list = [] then "No evidence found in web search."
  else
    String.intercalate "\n"
      ((evidence_list.take 3).map
        (fun ev => "• " ++ ev.source ++ ": " ++ ev.snippet.take 100 ++ "..."))

/-- One iteration of `FactCheckReporter.process_verification_results`
(`report_generator.py` lines 115–134): build a `ReportClaim` from one
`VerificationResult`. -/
def toReportClaim (r : VerificationResult) : ReportClaim :=
  let verdict := mapToVerdict r.verification_status r.confidence_score
  { claim_text := r.claim_text
    claim_type := r.claim_type
    context := r.claim_context
    page_number := r.page_number
    verdict := verdict
    confidence_score := r.confidence_score
    explanation := r.analysis
    evidence_summary := summarizeEvidence r.evidence
    sources_count := r.evidence.length
    recommendation := generateRecommendation verdict }

/-- `FactCheckReporter.process_verification_results`
(`report_generator.py` lines 111–136): appends one `ReportClaim` per
detailed result to the reporter's `report_claims` list (`prior`). -/
def processVerificationResults (prior : List ReportClaim)
    (detailed_results : List VerificationResult) : List ReportClaim :=
  prior ++ detailed_results.map toReportClaim

/-- Python `round(x, 2)` on the accuracy rate
(`report_generator.py` line 171), modelled on `ℚ`. -/
def round2 (q : ℚ) : ℚ := (round (q * 100) : ℤ) / 100

/-- `FactCheckReporter._assess_document_quality`
(`report_generator.py` lines 178–187). -/
def assessDocumentQuality (accuracy_rate : ℚ) : String :=
  if 90 ≤ accuracy_rate then "EXCELLENT - Minimal corrections needed"
  else if 75 ≤ accuracy_rate then "GOOD - Some corrections recommended"
  else if 50 ≤ accuracy_rate then "FAIR - Multiple corrections required"
  else "POOR - Significant revision needed"

/-- `FactCheckReporter.generate_executive_summary`
(`report_generator.py` lines 138–176).  `ts` models
`datetime.now().strftime(...)`.  The Python loop increments
`verdict_counts[claim.verdict]` on a dictionary whose only keys are
`verified`/`inaccurate`/`false` (it raises `KeyError` on any other
verdict, and `_map_to_verdict` only ever produces these three); the
counts are modelled with `countP` over each of the three labels. -/
def generateExecutiveSummary (claims : List ReportClaim) (ts : String) :
    ExecResult :=
  let total := claims.length
  if total = 0 then .error "No claims to report"
  else
    let verified := claims.countP (fun c => c.verdict == "verified")
    let inaccurate := claims.countP (fun c => c.verdict == "inaccurate")
    let falseCount := claims.countP (fun c => c.verdict == "false")
    let highPriority := claims.filterMap (fun c =>
      if (c.verdict == "inaccurate" || c.verdict == "false") &&
          (0.7 : ℚ) ≤ c.confidence_score then
        some { claim := c.claim_text
               verdict := c.verdict
               page := c.page_number
               confidence := c.confidence_score }
      else none)
    let accuracyRate := (verified : ℚ) / total * 100
    .summary
      { total_claims := total
        verified := verified
        inaccurate := inaccurate
        false_count := falseCount
        accuracy_rate := round2 accuracyRate
        document_quality := assessDocumentQuality accuracyRate
        high_priority_issues := highPriority
        issues_requiring_action := inaccurate + falseCount
        timestamp := ts }

/-- Erase the `timestamp` field of an executive summary (used to compare
two runs of `generate_executive_summary` up to the clock). -/
def execStripTs : ExecResult → ExecResult
  | .error m => .error m
  | .summary s => .summary { s with timestamp := "" }

/- Concrete fixtures used to evaluate the definitions at closed inputs. -/

/-- A concrete financial claim whose context has three words longer than
4 characters. -/
def financialClaim : Claim :=
  { text := "Revenue grew 40% in 2023"
    claim_type := "financial"
    context := "from the annual shareholder letter"
    page_number := 3 }

/-- A concrete already-classified report claim. -/
def sampleReportClaim : ReportClaim :=
  { claim_text := "Revenue grew 40% in 2023"
    claim_type := "financial"
    context := "from the annual shareholder letter"
    page_number := 3
    verdict := "verified"
    confidence_score := 0.9
    explanation := "Strong evidence supports the claim"
    evidence_summary := "• Tavily: filing..."
    sources_count := 1
    recommendation := "No action needed. Claim is accurate." }

/-- A concrete search result. -/
def sampleSearchResult : SearchResult :=
  { title := "Annual report"
    url := "https://example.com/report"
    snippet := "Revenue grew 40%"
    source := "Tavily" }

/-- A search model returning no results (and one recorded query). -/
def emptySearch : Claim → List SearchResult × List String :=
  fun _ => ([], [])

/-- A search model returning one result. -/
def oneResultSearch : Claim → List SearchResult × List String :=
  fun c => ([sampleSearchResult], [c.text])

/-- A language-model adjudicator model with a fixed verdict. -/
def constLLM : Claim → List SearchResult → LLMResult :=
  fun _ _ =>
    { verification_status := "verified"
      confidence_score := 0.9
      evidence := []
      analysis := "supported" }

/-- A second, different adjudicator model (used to show the adjudicator
is not consulted when the search returned nothing). -/
def constLLM' : Claim → List SearchResult → LLMResult :=
  fun _ _ =>
    { verification_status := "contradicted"
      confidence_score := 0.2
      evidence := []
      analysis := "refuted" }

/-- A per-claim verification outcome model that raises on page 2 and
succeeds elsewhere. -/
def failingVerify : Claim → Except String VerificationResult :=
  fun c =>
    if c.page_number = 2 then .error "search timeout"
    else .ok (verifyClaim emptySearch constLLM "t0" c)

/-- A batch of three claims; the middle one makes `failingVerify` raise. -/
def threeClaims : List Claim :=
  [{ text := "A", claim_type := "statistic", context := "", page_number := 1 },
   { text := "B", claim_type := "date", context := "", page_number := 2 },
   { text := "C", claim_type := "financial", context := "", page_number := 3 }]

/- Shared helper lemmas. -/

/-- When every claim's verdict is one of the three labels, the three
label counts partition the list. -/
theorem verdict_countP_sum (claims : List ReportClaim)
    (hdom : ∀ c ∈ claims, c.verdict = "verified" ∨ c.verdict = "inaccurate" ∨
      c.verdict = "false") :
    claims.countP (fun c => c.verdict == "verified") +
      claims.countP (fun c => c.verdict == "inaccurate") +
      claims.countP (fun c => c.verdict == "false") = claims.length := by
  induction claims with
  | nil => simp
  | cons c cs ih =>
    have hc := hdom c (List.mem_cons_self c cs)
    have ihs := ih (fun x hx => hdom x (List.mem_cons_of_mem c hx))
    rcases hc with h | h | h <;>
      simp only [List.countP_cons, h, List.length_cons] <;>
      simp <;> omega

/- C1: the status/confidence → verdict table. -/

/-- C1 counterexample: `_map_to_verdict` disagrees with the claimed
table.  The claim says `contradicted` at confidence 0.8 (≥ 0.65) maps to
"false" — the code maps it to "inaccurate"; the claim says `contradicted`
at 0.4 (< 0.65) maps to "inaccurate" — the code maps it to "false"; the
claim says `unverifiable` at 0.5 (≥ 0.3) maps to "inaccurate" — the code
maps it to "false". -/
theorem c1_counterexample :
    mapToVerdict "contradicted" (0.8 : ℚ) = "inaccurate" ∧
    mapToVerdict "contradicted" (0.8 : ℚ) ≠ "false" ∧
    mapToVerdict "contradicted" (0.4 : ℚ) = "false" ∧
    mapToVerdict "contradicted" (0.4 : ℚ) ≠ "inaccurate" ∧
    mapToVerdict "unverifiable" (0.5 : ℚ) = "false" ∧
    mapToVerdict "unverifiable" (0.5 : ℚ) ≠ "inaccurate" := by
  have h08 : mapToVerdict "contradicted" (0.8 : ℚ) = "inaccurate" := by
    unfold mapToVerdict
    rw [if_pos (show (0.7 : ℚ) ≤ 0.8 by norm_num)]
    decide
  have h04 : mapToVerdict "contradicted" (0.4 : ℚ) = "false" := by
    unfold mapToVerdict
    rw [if_neg (show ¬ (0.7 : ℚ) ≤ 0.4 by norm_num)]
    decide
  have hu : mapToVerdict "unverifiable" (0.5 : ℚ) = "false" := by
    unfold mapToVerdict
    rw [if_neg (show ¬ (0.7 : ℚ) ≤ 0.5 by norm_num)]
    decide
  exact ⟨h08, by rw [h08]; decide, h04, by rw [h04]; decide,
    hu, by rw [hu]; decide⟩

/-- C1 (amended): the verdict mapping returns exactly: status "verified"
→ "verified" at any confidence; "contradicted" → "inaccurate" when
confidence ≥ 0.7 and "false" when confidence < 0.7; "partial" →
"inaccurate" at any confidence; "unverifiable" (or any other status) →
"false" at any confidence; and the mapping is total into the three
verdict labels. -/
theorem c1_mapToVerdict_table (s : String) (c : ℚ) :
    mapToVerdict "verified" c = "verified" ∧
    ((0.7 : ℚ) ≤ c → mapToVerdict "contradicted" c = "inaccurate") ∧
    (c < (0.7 : ℚ) → mapToVerdict "contradicted" c = "false") ∧
    mapToVerdict "partial" c = "inaccurate" ∧
    mapToVerdict "unverifiable" c = "false" ∧
    (s ≠ "verified" → s ≠ "contradicted" → s ≠ "partial" →
      mapToVerdict s c = "false") ∧
    (mapToVerdict s c = "verified" ∨ mapToVerdict s c = "inaccurate" ∨
      mapToVerdict s c = "false") := by
  refine ⟨?_, ?_, ?_, ?_, ?_, ?_, ?_⟩
  · unfold mapToVerdict
    rw [if_pos rfl]
  · intro h
    unfold mapToVerdict
    rw [if_pos h, if_neg (by decide), if_pos rfl]
  · intro h
    unfold mapToVerdict
    rw [if_neg (not_le.2 h), if_neg (by decide), if_pos rfl]
  · unfold mapToVerdict
    rw [if_neg (by decide), if_neg (by decide), if_pos rfl]
  · unfold mapToVerdict
    rw [if_neg (by decide), if_neg (by decide), if_neg (by decide),
      if_pos rfl]
  · intro h1 h2 h3
    unfold mapToVerdict
    rw [if_neg h1, if_neg h2, if_neg h3]
    split <;> rfl
  · unfold mapToVerdict
    split_ifs <;> simp

/-- C1 witness: the amended table evaluated at concrete points. -/
theorem c1_mapToVerdict_table_witness :
    mapToVerdict "contradicted" (0.8 : ℚ) = "inaccurate" ∧
    mapToVerdict "contradicted" (0.4 : ℚ) = "false" ∧
    mapToVerdict "unknown" (0.5 : ℚ) = "false" :=
  ⟨(c1_mapToVerdict_table "unknown" 0.8).2.1 (by norm_num),
   (c1_mapToVerdict_table "unknown" 0.4).2.2.1 (by norm_num),
   (c1_mapToVerdict_table "unknown" 0.5).2.2.2.2.2.1
     (by decide) (by decide) (by decide)⟩

/- C4: the zero-claims case of the executive summary. -/

/-- C4 counterexample: on an empty claim list `generate_executive_summary`
returns the error dictionary `{'error': 'No claims to report'}`, not a
report with all-zero counts and an "UNKNOWN — no claims processed"
quality string (no such string exists in the code). -/
theorem c4_counterexample :
    generateExecutiveSummary [] "2024-01-01 00:00:00" =
      ExecResult.error "No claims to report" := by
  rfl

/-- C4 (amended): when the reporter's processed claim list is empty,
`generate_executive_summary` returns the error value
`{'error': 'No claims to report'}` instead of a summary report. -/
theorem c4_empty_returns_error (ts : String) :
    generateExecutiveSummary [] ts = ExecResult.error "No claims to report" :=
  rfl

/- C7: purity of the executive summary. -/

/-- Evaluation of `generate_executive_summary` in the non-empty case:
the unfolded summary record. -/
theorem generateExecutiveSummary_eq (claims : List ReportClaim) (ts : String)
    (h : claims.length ≠ 0) :
    generateExecutiveSummary claims ts = ExecResult.summary
      { total_claims := claims.length
        verified := claims.countP (fun c => c.verdict == "verified")
        inaccurate := claims.countP (fun c => c.verdict == "inaccurate")
        false_count := claims.countP (fun c => c.verdict == "false")
        accuracy_rate := round2
          ((claims.countP (fun c => c.verdict == "verified") : ℚ) /
            (claims.length : ℚ) * 100)
        document_quality := assessDocumentQuality
          ((claims.countP (fun c => c.verdict == "verified") : ℚ) /
            (claims.length : ℚ) * 100)
        high_priority_issues := claims.filterMap (fun c =>
          if (c.verdict == "inaccurate" || c.verdict == "false") &&
              (0.7 : ℚ) ≤ c.confidence_score then
            some { claim := c.claim_text
                   verdict := c.verdict
                   page := c.page_number
                   confidence := c.confidence_score }
          else none)
        issues_requiring_action :=
          claims.countP (fun c => c.verdict == "inaccurate") +
            claims.countP (fun c => c.verdict == "false")
        timestamp := ts } := by
  unfold generateExecutiveSummary
  simp [h]

/-- C7 counterexample: two runs of `generate_executive_summary` on the
same claim list at different clock times are not identical — the output
embeds `datetime.now()` in its `timestamp` field. -/
theorem c7_counterexample :
    generateExecutiveSummary [sampleReportClaim] "2024-01-01 10:00:00" ≠
      generateExecutiveSummary [sampleReportClaim] "2024-01-01 10:00:05" := by
  intro h
  rw [generateExecutiveSummary_eq _ _ (by decide),
    generateExecutiveSummary_eq _ _ (by decide)] at h
  have h3 := congrArg
    (fun r => match r with
      | ExecResult.error m => m
      | ExecResult.summary s => s.timestamp) h
  simp at h3

/-- C7 (amended): re-running `generate_executive_summary` on the same
`report_claims` list yields identical output in every field except
`timestamp`, which records the current clock time — the summary apart
from the timestamp is a pure function of the stored claim list. -/
theorem c7_summary_pure_up_to_timestamp (claims : List ReportClaim)
    (t1 t2 : String) :
    execStripTs (generateExecutiveSummary claims t1) =
      execStripTs (generateExecutiveSummary claims t2) := by
  unfold generateExecutiveSummary
  by_cases h : claims.length = 0 <;> simp [h, execStripTs]

/- C8: the count invariant of the executive summary. -/

/-- C8: for every non-empty report-claim list (whose verdicts lie in the
three-label domain `_map_to_verdict` produces — any other verdict makes
the Python count loop raise `KeyError`), the executive summary satisfies
`verified + inaccurate + false == total_claims`. -/
theorem c8_counts_sum (claims : List ReportClaim) (ts : String)
    (hne : claims ≠ [])
    (hdom : ∀ c ∈ claims, c.verdict = "verified" ∨ c.verdict = "inaccurate" ∨
      c.verdict = "false") :
    ∃ s, generateExecutiveSummary claims ts = ExecResult.summary s ∧
      s.verified + s.inaccurate + s.false_count = s.total_claims := by
  have hlen : claims.length ≠ 0 := by
    simpa [List.length_eq_zero] using hne
  refine ⟨_, generateExecutiveSummary_eq claims ts hlen, ?_⟩
  simpa using verdict_countP_sum claims hdom

/-- C8 witness: the invariant evaluated on a concrete one-claim list. -/
theorem c8_counts_sum_witness :
    ∃ s, generateExecutiveSummary [sampleReportClaim] "t" =
        ExecResult.summary s ∧
      s.verified + s.inaccurate + s.false_count = s.total_claims :=
  c8_counts_sum [sampleReportClaim] "t" (by decide) (by decide)

/- C5: query generation. -/

/-- C5 counterexample: for a `financial` claim whose context has words
longer than 4 characters, query 2 is the context-enhanced query, not the
type-specific "financial report SEC filing" query the claim prescribes —
the type-specific candidate is appended after the context-enhanced one
and is cut off by the `[:2]` truncation. -/
theorem c5_counterexample :
    generateSearchQueries financialClaim =
      ["Revenue grew 40% in 2023",
       "Revenue grew 40% in 2023 annual shareholder letter"] ∧
    generateSearchQueries financialClaim ≠
      ["Revenue grew 40% in 2023",
       "Revenue grew 40% in 2023 financial report SEC filing"] := by
  constructor
  · rfl
  · decide

/-- C5 (amended): query 1 is the raw claim text verbatim and at most 2
queries are returned; query 2 is the claim text followed by up to 5
context words longer than 4 characters whenever such words exist (for
every claim type); only when the context has no such words is query 2
the type-specific suffix ("financial report SEC filing" /
"statistics data report" / "date timeline event"), and a claim of any
other type with no such context words yields the single base query. -/
theorem c5_generateSearchQueries (claim : Claim) :
    (generateSearchQueries claim).length ≤ 2 ∧
    (generateSearchQueries claim).head? = some claim.text ∧
    (contextWords claim.context ≠ [] →
      generateSearchQueries claim =
        [claim.text,
         claim.text ++ " " ++
           String.intercalate " " (contextWords claim.context)]) ∧
    (contextWords claim.context = [] → claim.claim_type = "financial" →
      generateSearchQueries claim =
        [claim.text, claim.text ++ " financial report SEC filing"]) ∧
    (contextWords claim.context = [] → claim.claim_type = "statistic" →
      generateSearchQueries claim =
        [claim.text, claim.text ++ " statistics data report"]) ∧
    (contextWords claim.context = [] → claim.claim_type = "date" →
      generateSearchQueries claim =
        [claim.text, claim.text ++ " date timeline event"]) ∧
    (contextWords claim.context = [] → claim.claim_type ≠ "financial" →
      claim.claim_type ≠ "statistic" → claim.claim_type ≠ "date" →
      generateSearchQueries claim = [claim.text]) := by
  unfold generateSearchQueries
  by_cases hcw : contextWords claim.context = [] <;>
    by_cases hf : claim.claim_type = "financial" <;>
      by_cases hs : claim.claim_type = "statistic" <;>
        by_cases hd : claim.claim_type = "date" <;>
          simp_all

/-- C5 witness: the amended characterization at the concrete claim. -/
theorem c5_generateSearchQueries_witness :
    generateSearchQueries financialClaim =
      [financialClaim.text,
       financialClaim.text ++ " " ++
         String.intercalate " " (contextWords financialClaim.context)] :=
  (c5_generateSearchQueries financialClaim).2.2.1 (by decide)

/- C6: the search deduplication step. -/

/-- The deduplication loop output is a sublist of its input. -/
theorem dedupByUrl_sublist (l : List SearchResult) (seen : List String) :
    (dedupByUrl l seen).Sublist l := by
  induction l generalizing seen with
  | nil => simp [dedupByUrl]
  | cons r rest ih =>
    simp only [dedupByUrl]
    split
    · exact (ih seen).cons r
    · exact (ih (r.url :: seen)).cons₂ r

/-- No url of the deduplication loop output was already seen. -/
theorem dedupByUrl_url_not_seen (l : List SearchResult) (seen : List String) :
    ∀ r ∈ dedupByUrl l seen, r.url ∉ seen := by
  induction l generalizing seen with
  | nil => simp [dedupByUrl]
  | cons x rest ih =>
    simp only [dedupByUrl]
    split
    · exact ih seen
    · rename_i hx
      intro r hr
      rcases List.mem_cons.1 hr with h | h
      · subst h; exact hx
      · intro hmem
        exact ih (x.url :: seen) r h (List.mem_cons_of_mem _ hmem)

/-- The deduplication loop output has pairwise distinct urls. -/
theorem dedupByUrl_pairwise (l : List SearchResult) (seen : List String) :
    (dedupByUrl l seen).Pairwise (fun a b => a.url ≠ b.url) := by
  induction l generalizing seen with
  | nil => simp [dedupByUrl]
  | cons x rest ih =>
    simp only [dedupByUrl]
    split
    · exact ih seen
    · refine List.Pairwise.cons ?_ (ih (x.url :: seen))
      intro b hb hEq
      apply dedupByUrl_url_not_seen rest (x.url :: seen) b hb
      rw [← hEq]
      exact List.mem_cons_self _ _

/-- Every retained entry is the first entry of the input carrying its
url. -/
theorem dedupByUrl_first_occurrence (l : List SearchResult)
    (seen : List String) :
    ∀ r ∈ dedupByUrl l seen, l.find? (fun x => x.url == r.url) = some r := by
  induction l generalizing seen with
  | nil => simp [dedupByUrl]
  | cons x rest ih =>
    simp only [dedupByUrl]
    split
    · rename_i hx
      intro r hr
      have hru := dedupByUrl_url_not_seen rest seen r hr
      have hne : ¬ (x.url == r.url) = true := by
        simp only [beq_iff_eq]
        intro hEq
        exact hru (hEq ▸ hx)
      rw [@List.find?_cons_of_neg _ (fun y => y.url == r.url) x rest hne]
      exact ih seen r hr
    · rename_i hx
      intro r hr
      rcases List.mem_cons.1 hr with h | h
      · subst h
        exact @List.find?_cons_of_pos _ (fun y => y.url == r.url) r rest
          (by simp)
      · have hru := dedupByUrl_url_not_seen rest (x.url :: seen) r h
        have hne : ¬ (x.url == r.url) = true := by
          simp only [beq_iff_eq]
          intro hEq
          exact hru (by rw [← hEq]; exact List.mem_cons_self _ _)
        rw [@List.find?_cons_of_neg _ (fun y => y.url == r.url) x rest hne]
        exact ih (x.url :: seen) r h

/-- C6: the result list returned by the dedup-and-truncate step of
`search_for_claim` has no two entries with equal url, keeps for each
retained entry the first input occurrence of its url, preserves the
input's relative order (it is a sublist of the input), and has length at
most 5. -/
theorem c6_dedupTruncate (results : List SearchResult) :
    (dedupTruncate results).Pairwise (fun a b => a.url ≠ b.url) ∧
    (∀ r ∈ dedupTruncate results,
      results.find? (fun x => x.url == r.url) = some r) ∧
    (dedupTruncate results).Sublist results ∧
    (dedupTruncate results).length ≤ 5 := by
  refine ⟨?_, ?_, ?_, ?_⟩
  · exact List.Pairwise.sublist (List.take_sublist _ _)
      (dedupByUrl_pairwise results [])
  · intro r hr
    exact dedupByUrl_first_occurrence results [] r
      ((List.take_sublist _ _).subset hr)
  · exact (List.take_sublist _ _).trans (dedupByUrl_sublist results [])
  · calc (dedupTruncate results).length
        = ((dedupByUrl results []).take 5).length := rfl
      _ ≤ 5 := by
        rw [List.length_take]
        exact min_le_left _ _

/-- C6 witness: the first-occurrence property at a concrete
duplicate-bearing list. -/
theorem c6_dedupTruncate_witness :
    [sampleSearchResult, sampleSearchResult].find?
      (fun x => x.url == sampleSearchResult.url) = some sampleSearchResult :=
  (c6_dedupTruncate [sampleSearchResult, sampleSearchResult]).2.1
    sampleSearchResult (by decide)

/- C9: behaviour when every search query fails. -/

/-- C9 counterexample: with a provider on which every query fails, the
code returns `([], [])` — the `queries_used` component is empty even
though both generated queries were issued, because a query is recorded
only when it returned results. -/
theorem c9_counterexample :
    searchForClaim (fun _ => []) financialClaim = ([], []) ∧
    generateSearchQueries financialClaim ≠ [] ∧
    (searchForClaim (fun _ => []) financialClaim).2 ≠
      generateSearchQueries financialClaim := by
  refine ⟨rfl, by decide, by decide⟩

/-- C9 (amended): when every generated query's provider search fails
(returns zero results), `search_for_claim` returns an empty result list
together with an EMPTY `queries_used` list — `queries_used` records only
the queries that returned at least one result, not every query
issued. -/
theorem c9_all_queries_fail (provider : String → List SearchResult)
    (claim : Claim) (h : ∀ q, provider q = []) :
    searchForClaim provider claim = ([], []) := by
  have hloop : ∀ qs acc used,
      searchLoop provider qs acc used = (acc, used) := by
    intro qs
    induction qs with
    | nil => intro acc used; rfl
    | cons q qs ih =>
      intro acc used
      simp [searchLoop, h q, ih]
  simp [searchForClaim, hloop, dedupTruncate, dedupByUrl]

/-- C9 witness: the amended statement at a concrete claim and the
all-failing provider. -/
theorem c9_all_queries_fail_witness :
    searchForClaim (fun _ => []) financialClaim = ([], []) :=
  c9_all_queries_fail (fun _ => []) financialClaim (fun _ => rfl)

/- C3: the no-search-results short-circuit of `verify_claim`. -/

/-- C3: when the search step yields no results, `verify_claim` produces
the unverifiable/zero-confidence fallback with the exact analysis string
and provider "None", and never consults the language model (the result
is the same for any two adjudicators); when results are non-empty,
`search_provider_used` is the first result's `source` field. -/
theorem c3_verifyClaim (search : Claim → List SearchResult × List String)
    (llm llm' : Claim → List SearchResult → LLMResult)
    (ts : String) (claim : Claim) :
    ((search claim).1 = [] →
      (verifyClaim search llm ts claim).verification_status =
          "unverifiable" ∧
        (verifyClaim search llm ts claim).confidence_score = 0 ∧
        (verifyClaim search llm ts claim).evidence = [] ∧
        (verifyClaim search llm ts claim).analysis =
          "No search results found to verify this claim." ∧
        (verifyClaim search llm ts claim).search_provider_used = "None" ∧
        verifyClaim search llm ts claim = verifyClaim search llm' ts claim) ∧
    (∀ r rs, (search claim).1 = r :: rs →
      (verifyClaim search llm ts claim).search_provider_used = r.source) := by
  constructor
  · intro h
    simp [verifyClaim, h, noSearchResultsLLM]
  · intro r rs h
    simp [verifyClaim, h]

/-- C3 witness: the short-circuit at a concrete empty search and two
distinct adjudicators, and the provider field at a concrete non-empty
search. -/
theorem c3_verifyClaim_witness :
    ((verifyClaim emptySearch constLLM "t0" financialClaim).verification_status =
        "unverifiable" ∧
      (verifyClaim emptySearch constLLM "t0" financialClaim).confidence_score =
        0 ∧
      (verifyClaim emptySearch constLLM "t0" financialClaim).evidence = [] ∧
      (verifyClaim emptySearch constLLM "t0" financialClaim).analysis =
        "No search results found to verify this claim." ∧
      (verifyClaim emptySearch constLLM "t0" financialClaim).search_provider_used =
        "None" ∧
      verifyClaim emptySearch constLLM "t0" financialClaim =
        verifyClaim emptySearch constLLM' "t0" financialClaim) ∧
    (verifyClaim oneResultSearch constLLM "t0" financialClaim).search_provider_used =
      "Tavily" :=
  ⟨(c3_verifyClaim emptySearch constLLM constLLM' "t0" financialClaim).1 rfl,
   (c3_verifyClaim oneResultSearch constLLM constLLM' "t0" financialClaim).2
     sampleSearchResult [] rfl⟩

/- C2 and C10: the batch loop. -/

/-- The batch loop yields exactly one result per processed claim. -/
theorem verifyLoop_length (verify : Claim → Except String VerificationResult)
    (tsOf : Nat → String) (i : Nat) (l : List Claim) :
    (verifyLoop verify tsOf i l).length = l.length := by
  induction l generalizing i with
  | nil => rfl
  | cons c cs ih => simp [verifyLoop, ih]

/-- The j-th result of the batch loop comes from the j-th claim:
the claim's own result on success, the error fallback on failure. -/
theorem verifyLoop_getElem?
    (verify : Claim → Except String VerificationResult)
    (tsOf : Nat → String) (i j : Nat) (l : List Claim) :
    (verifyLoop verify tsOf i l)[j]? = (l[j]?).map (fun c =>
      match verify c with
      | .ok r => r
      | .error e => errorFallback c e (tsOf (i + j))) := by
  induction l generalizing i j with
  | nil => simp [verifyLoop]
  | cons c cs ih =>
    cases j with
    | zero => simp [verifyLoop]
    | succ j =>
      have harith : i + 1 + j = i + (j + 1) := by omega
      simp [verifyLoop, ih (i + 1) j, harith]

/-- C2: starting from a fresh verifier, `verify_all_claims` returns one
result per claim of the (possibly `max_claims`-truncated) input list, in
input order; a claim whose verification raises with message `e` yields a
fallback result with status "unverifiable", zero confidence, no
evidence, the exception message in its analysis, and the batch continues
(every other index keeps its own result). -/
theorem c2_verifyAllClaims
    (verify : Claim → Except String VerificationResult)
    (tsOf : Nat → String) (claims : List Claim) (maxClaims : Option Nat) :
    (verifyAllClaims verify tsOf [] claims maxClaims).length =
      (truncateClaims claims maxClaims).length ∧
    (∀ (i : Nat) (c : Claim),
      (truncateClaims claims maxClaims)[i]? = some c →
      (∀ r, verify c = .ok r →
        (verifyAllClaims verify tsOf [] claims maxClaims)[i]? = some r) ∧
      (∀ e, verify c = .error e →
        ∃ res : VerificationResult,
          (verifyAllClaims verify tsOf [] claims maxClaims)[i]? =
            some res ∧
          res.verification_status = "unverifiable" ∧
          res.confidence_score = 0 ∧
          res.evidence = [] ∧
          res.analysis = "Error: " ++ e ∧
          res.claim_text = c.text ∧
          res.search_provider_used = "None")) := by
  constructor
  · simp [verifyAllClaims, verifyLoop_length]
  · intro i c hc
    constructor
    · intro r hr
      simp [verifyAllClaims, verifyLoop_getElem?, hc, hr]
    · intro e he
      refine ⟨errorFallback c e (tsOf i), ?_, rfl, rfl, rfl, rfl, rfl, rfl⟩
      simp [verifyAllClaims, verifyLoop_getElem?, hc, he]

/-- C2 witness: a three-claim batch whose middle claim raises; the batch
returns three results, the middle one being the fallback. -/
theorem c2_verifyAllClaims_witness :
    ((verifyAllClaims failingVerify (fun _ => "t1") [] threeClaims none).length =
        (truncateClaims threeClaims none).length) ∧
    ((verifyAllClaims failingVerify (fun _ => "t1") [] threeClaims none)[0]? =
        some (verifyClaim emptySearch constLLM "t0"
          { text := "A", claim_type := "statistic", context := "",
            page_number := 1 })) ∧
    (∃ res,
      (verifyAllClaims failingVerify (fun _ => "t1") [] threeClaims none)[1]? =
          some res ∧
        res.verification_status = "unverifiable" ∧
        res.confidence_score = 0 ∧
        res.evidence = [] ∧
        res.analysis = "Error: " ++ "search timeout" ∧
        res.claim_text = "B" ∧
        res.search_provider_used = "None") := by
  refine ⟨(c2_verifyAllClaims failingVerify (fun _ => "t1") threeClaims none).1,
    ((c2_verifyAllClaims failingVerify (fun _ => "t1") threeClaims none).2 0
      { text := "A", claim_type := "statistic", context := "",
        page_number := 1 } rfl).1 _ ?_,
    ((c2_verifyAllClaims failingVerify (fun _ => "t1") threeClaims none).2 1
      { text := "B", claim_type := "date", context := "",
        page_number := 2 } rfl).2 "search timeout" ?_⟩
  · rfl
  · rfl

/-- C10: `verify_all_claims` appends to and returns the verifier's
persistent cumulative results list: a second call on list B after a
first call on list A returns a list of length |A| + |B| whose prefix is
the first call's results; and `max_claims = 0` is falsy in Python, so it
processes all claims exactly as `max_claims = None` does. -/
theorem c10_cumulative_results
    (verify : Claim → Except String VerificationResult)
    (tsOf : Nat → String) (A B : List Claim)
    (prior : List VerificationResult) (claims : List Claim) :
    ((verifyAllClaims verify tsOf
        (verifyAllClaims verify tsOf [] A none) B none).length =
      A.length + B.length) ∧
    ((verifyAllClaims verify tsOf
        (verifyAllClaims verify tsOf [] A none) B none).take
          (verifyAllClaims verify tsOf [] A none).length =
      verifyAllClaims verify tsOf [] A none) ∧
    (verifyAllClaims verify tsOf prior claims (some 0) =
      verifyAllClaims verify tsOf prior claims none) := by
  refine ⟨?_, ?_, ?_⟩
  · simp [verifyAllClaims, verifyLoop_length, truncateClaims]
  · exact List.take_left _ _
  · rfl

end FactCheck
